import Mathlib

/-!
Verification of the adaptive transactional write path of the
volunteer/project coordination backend (backend-a-orchestrator).

The definitions below are a shallow embedding of the JavaScript source:

* `middleware/rateLimit.js`  → `parseNumber`, `rateLimitStep`, `rateLimitHandle`
* `middleware/firebaseAuth.js` → `extractBearerToken`, `claimHasManagerRole`,
  `decodedTokenHasManagerAccess`, `requireFirebaseManager`
* `routes/contributions.js`  → `contributionValid`, `contributionsRun`
* `routes/volunteers.js`     → `volunteersRun`
* `routes/projects.js`       → `getProjectColumnCapabilities`,
  `projectCreateRun` (shared body of POST / and POST /public, which differ
  only in schema/status forcing), `projectsListRun`, `projectsStatusPatchRun`,
  `applicationsCreateRun`, `applicationsListRun`, `applicationsDecideRun`

Each route handler is modelled as a pure function from the request data, the
database state and a failure-injection point (which awaited step, if any,
throws) to the HTTP response, the resulting database state and the ordered
trace of pool/statement events the handler issues.  The traces record exactly
the statements the source sends to the database, in source order, including a
statement that itself throws (it was issued), and the catch/finally behaviour
(ROLLBACK only where the source has it, release in finally only when the
client was acquired).
-/

/-- Ordered events a request handler emits against the pool/connection. -/
inductive Ev
  | acquire
  | qBegin
  | qSetSerializable
  | qData (name : String)
  | qCommit
  | qRollback
  | release
  deriving DecidableEq, Repr

/-- HTTP response model: only the fields the claims inspect. -/
structure HttpResponse where
  status : Nat
  success : Option Bool
  errorCode : Option String
  transactionId : Option String
  deriving DecidableEq, Repr

def errResp (status : Nat) (code : String) : HttpResponse :=
  ⟨status, some false, some code, none⟩

def isRelease : Ev → Bool
  | Ev.release => true
  | _ => false

def isAcquire : Ev → Bool
  | Ev.acquire => true
  | _ => false

def isDataStmt : Ev → Bool
  | Ev.qData _ => true
  | _ => false

def isTxnCtl : Ev → Bool
  | Ev.qBegin => true
  | Ev.qSetSerializable => true
  | Ev.qCommit => true
  | Ev.qRollback => true
  | _ => false

def releaseCount (evs : List Ev) : Nat := (evs.filter isRelease).length

def wasAcquired (evs : List Ev) : Bool := evs.any isAcquire

def dataStmtCount (evs : List Ev) : Nat := (evs.filter isDataStmt).length

/-- True when a ROLLBACK occurs strictly before the first release. -/
def rollbackBeforeRelease : List Ev → Bool
  | [] => false
  | Ev.release :: _ => false
  | Ev.qRollback :: _ => true
  | _ :: rest => rollbackBeforeRelease rest

/-- No transaction-control statement at all: the handler runs in autocommit. -/
def autocommitOnly (evs : List Ev) : Bool := !(evs.any isTxnCtl)

/-- Automaton checking the serializable-transaction discipline of a trace:
at most one BEGIN; SET LOCAL TRANSACTION ISOLATION LEVEL SERIALIZABLE issued
inside the transaction before the first data statement; every data statement
inside the open transaction; the transaction closed by COMMIT or ROLLBACK
(a ROLLBACK after a failed COMMIT is the harmless no-op the engine permits). -/
def txnCheck : List Ev → Bool → Bool → Bool → Bool
  | [], inTxn, _, _ => !inTxn
  | Ev.acquire :: rest, inTxn, sawSet, closed => txnCheck rest inTxn sawSet closed
  | Ev.release :: rest, inTxn, sawSet, closed => txnCheck rest inTxn sawSet closed
  | Ev.qBegin :: rest, inTxn, _, closed =>
      if inTxn || closed then false else txnCheck rest true false closed
  | Ev.qSetSerializable :: rest, inTxn, _, closed =>
      if inTxn then txnCheck rest true true closed else false
  | Ev.qData _ :: rest, inTxn, sawSet, closed =>
      if inTxn && sawSet then txnCheck rest inTxn sawSet closed else false
  | Ev.qCommit :: rest, inTxn, sawSet, _ =>
      if inTxn then txnCheck rest false sawSet true else false
  | Ev.qRollback :: rest, _, sawSet, _ => txnCheck rest false sawSet true

def txnWrapped (evs : List Ev) : Bool := txnCheck evs false false false

/-! ## RateLimiter (middleware/rateLimit.js) -/

/-- Model of `parseNumber(value, fallback)`: a finite positive number is kept,
anything else yields the fallback. -/
def parseNumber (value : Option Int) (fallback : Nat) : Nat :=
  match value with
  | some v => if 0 < v then v.toNat else fallback
  | none => fallback

structure Bucket where
  count : Nat
  resetAt : Nat
  deriving DecidableEq, Repr

/-- The limiter `buckets` map, keyed by client IP. -/
abbrev RLState := List (String × Bucket)

def rlLookup : RLState → String → Option Bucket
  | [], _ => none
  | (k, b) :: rest, key => if k = key then some b else rlLookup rest key

def rlSet : RLState → String → Bucket → RLState
  | [], key, b => [(key, b)]
  | (k, old) :: rest, key, b =>
      if k = key then (key, b) :: rest else (k, old) :: rlSet rest key b

inductive RLDecision
  | allow
  | deny (retryAfterSeconds : Nat)
  deriving DecidableEq, Repr

/-- Model of `Math.ceil(ms / 1000)` for a nonnegative integer `ms`. -/
def ceilDiv1000 (ms : Nat) : Nat := (ms + 999) / 1000

/-- One pass through the closure returned by `createIpRateLimiter`:
fixed-window counting exactly as in the source (reset on missing or expired
bucket; deny once `count >= maxRequests`; otherwise increment). -/
def rateLimitStep (windowMs maxRequests : Nat) (st : RLState) (key : String)
    (now : Nat) : RLDecision × RLState :=
  match rlLookup st key with
  | none => (RLDecision.allow, rlSet st key ⟨1, now + windowMs⟩)
  | some existing =>
    if existing.resetAt ≤ now then
      (RLDecision.allow, rlSet st key ⟨1, now + windowMs⟩)
    else if maxRequests ≤ existing.count then
      (RLDecision.deny (max 1 (ceilDiv1000 (existing.resetAt - now))), st)
    else
      (RLDecision.allow, rlSet st key ⟨existing.count + 1, existing.resetAt⟩)

/-- The middleware response mapping: a denial becomes a 429 response carrying
the Retry-After value; an admission proceeds to the guarded handler. -/
def rateLimitHandle (windowMs maxRequests : Nat) (st : RLState) (key : String)
    (now : Nat) (errorCode : String) :
    Option (HttpResponse × Nat) × RLState :=
  match rateLimitStep windowMs maxRequests st key now with
  | (RLDecision.allow, st1) => (none, st1)
  | (RLDecision.deny r, st1) => (some (errResp 429 errorCode, r), st1)

/-- Run a sequence of requests from one key at the given times. -/
def rlRun (windowMs maxRequests : Nat) (st : RLState) (key : String) :
    List Nat → List RLDecision × RLState
  | [] => ([], st)
  | now :: rest =>
    match rateLimitStep windowMs maxRequests st key now with
    | (d, st1) =>
      match rlRun windowMs maxRequests st1 key rest with
      | (ds, st2) => (d :: ds, st2)

/-! ## AuthorizationGate: identity-token guard (middleware/firebaseAuth.js) -/

/-- Split a string at every single space, as the JavaScript
`header.split(" ")` does (adjacent spaces produce empty parts). -/
def splitCharsOnSpace : List Char → List (List Char)
  | [] => [[]]
  | c :: rest =>
    if c = ' ' then [] :: splitCharsOnSpace rest
    else
      match splitCharsOnSpace rest with
      | [] => [[c]]
      | w :: ws => (c :: w) :: ws

def splitOnSpaces (s : String) : List String :=
  (splitCharsOnSpace s.toList).map List.asString

def trimChars (cs : List Char) : List Char :=
  ((cs.dropWhile Char.isWhitespace).reverse.dropWhile Char.isWhitespace).reverse

/-- Model of JavaScript `String.prototype.trim`. -/
def strTrim (s : String) : String := (trimChars s.toList).asString

/-- Model of JavaScript `String.prototype.toLowerCase` on ASCII input. -/
def strToLower (s : String) : String := (s.toList.map Char.toLower).asString

/-- A JSON claim value as inspected by `claimHasManagerRole`. -/
inductive ClaimVal
  | b (v : Bool)
  | s (v : String)
  | arr (v : List ClaimVal)
  | other

/-- Manager-guard configuration derived from the environment variables
`FIREBASE_MANAGER_ROLE_CLAIMS`, `FIREBASE_MANAGER_ROLE_VALUES`
and `FIREBASE_MANAGER_EMAILS` (the value and email sets are lowercased). -/
structure AuthConfig where
  roleClaims : List String
  roleValues : List String
  managerEmails : List String

def DEFAULT_MANAGER_ROLE_CLAIMS : List String := ["admin", "projectManager", "manager"]

def DEFAULT_MANAGER_ROLE_VALUES : List String := ["admin", "project_manager", "manager"]

def defaultAuthConfig : AuthConfig :=
  ⟨DEFAULT_MANAGER_ROLE_CLAIMS, DEFAULT_MANAGER_ROLE_VALUES, []⟩

/-- Model of `extractBearerToken`: split the header on single spaces, take the
first two parts as scheme and token, require both nonempty and the scheme to
be "bearer" case-insensitively, and return the trimmed token. -/
def extractBearerToken (authorizationHeader : Option String) : String :=
  match authorizationHeader with
  | none => ("")
  | some h =>
    let parts := splitOnSpaces h
    let scheme := parts.getD 0 ""
    let token := parts.getD 1 ""
    if scheme = "" ∨ token = "" ∨ strToLower scheme ≠ "bearer" then ("")
    else strTrim token

def listLookup : List (String × ClaimVal) → String → Option ClaimVal
  | [], _ => none
  | (k, v) :: rest, key => if k = key then some v else listLookup rest key

/-- Model of `claimHasManagerRole(value)`: literal `true`, a string in the
configured value set (trimmed, lowercased), or an array containing such a
string; absent claims and every other shape resolve no role. -/
def claimHasManagerRole (roleValues : List String) : Option ClaimVal → Bool
  | some (ClaimVal.b true) => true
  | some (ClaimVal.s v) => roleValues.contains (strToLower (strTrim v))
  | some (ClaimVal.arr l) =>
      l.any fun entry =>
        match entry with
        | ClaimVal.s v => roleValues.contains (strToLower (strTrim v))
        | _ => false
  | _ => false

/-- Decoded identity token: the claim map plus the fields the middleware
reads directly. -/
structure DecodedToken where
  claims : List (String × ClaimVal)
  uid : String
  email : Option String

/-- Model of `decodedTokenHasManagerAccess`. -/
def decodedTokenHasManagerAccess (cfg : AuthConfig) (t : DecodedToken) : Bool :=
  cfg.roleClaims.any (fun c => claimHasManagerRole cfg.roleValues (listLookup t.claims c))
  || claimHasManagerRole cfg.roleValues (listLookup t.claims ("role"))
  || claimHasManagerRole cfg.roleValues (listLookup t.claims ("roles"))
  || (match t.email with
      | some e => strToLower e ≠ "" && cfg.managerEmails.contains (strToLower e)
      | none => false)

/-- Outcome of `getFirebaseAuthClient()` as observed by the middleware. -/
inductive ClientRes
  | ok
  | notConfigured
  | otherInitError
  deriving DecidableEq, Repr

/-- Outcome of `authClient.verifyIdToken(token, true)`. -/
inductive VerifyRes
  | ok (t : DecodedToken)
  | fail

/-- Result of the guard: either a terminal response, or control passed to the
route handler with the caller identity attached (`req.authUser`). -/
inductive AuthOutcome
  | respond (r : HttpResponse)
  | proceed (uid : String) (email : Option String)

/-- Model of the `requireFirebaseManager` middleware.  The Boolean in the
result records whether the identity provider was consulted at all
(`getFirebaseAuthClient` / `verifyIdToken`). -/
def requireFirebaseManager (cfg : AuthConfig) (authorizationHeader : Option String)
    (clientRes : ClientRes) (verifyRes : VerifyRes) : AuthOutcome × Bool :=
  let token := extractBearerToken authorizationHeader
  if token = "" then
    (AuthOutcome.respond (errResp 401 "UNAUTHORIZED"), false)
  else
    match clientRes with
    | ClientRes.notConfigured =>
        (AuthOutcome.respond (errResp 503 "FIREBASE_NOT_CONFIGURED"), true)
    | ClientRes.otherInitError =>
        (AuthOutcome.respond (errResp 500 "FIREBASE_INIT_FAILED"), true)
    | ClientRes.ok =>
      match verifyRes with
      | VerifyRes.fail => (AuthOutcome.respond (errResp 401 "UNAUTHORIZED"), true)
      | VerifyRes.ok t =>
        if !decodedTokenHasManagerAccess cfg t then
          (AuthOutcome.respond (errResp 403 "FORBIDDEN"), true)
        else
          (AuthOutcome.proceed t.uid t.email, true)

/-! ## LedgerService: POST /api/v1/contributions (routes/contributions.js) -/

/-- A primitive JSON value of a request-body field. -/
inductive JVal
  | jstr (s : String)
  | jnum (q : Rat)
  | jbool (b : Bool)
  | jnull
  deriving DecidableEq, Repr

/-- Raw contribution request body (`none` = field absent). -/
structure ContribBody where
  userId : Option JVal
  projectId : Option JVal
  impactType : Option JVal
  impactValue : Option JVal
  evidenceUrl : Option JVal
  deriving Repr

def isHexDigit (c : Char) : Bool :=
  c.isDigit || ('a' ≤ c && c ≤ 'f') || ('A' ≤ c && c ≤ 'F')

/-- Model of the zod `z.string().uuid()` format check: 36 characters in the
8-4-4-4-12 hyphenated hexadecimal layout. -/
def isUuid (s : String) : Bool :=
  let cs := s.toList
  cs.length = 36 &&
  (List.range 36).all fun i =>
    let c := cs.getD i ' '
    if i = 8 || i = 13 || i = 18 || i = 23 then c = '-' else isHexDigit c

/-- Executable stand-in for the zod `z.string().url()` acceptance on the
http(s) URLs this service receives. -/
def isUrl (s : String) : Bool :=
  (("http://".toList.isPrefixOf s.toList) && s.length > 7)
    || (("https://".toList.isPrefixOf s.toList) && s.length > 8)

def vUuidField : Option JVal → Bool
  | some (JVal.jstr s) => isUuid s
  | _ => false

def vImpactType : Option JVal → Bool
  | some (JVal.jstr s) =>
      2 ≤ (strTrim s).length && (strTrim s).length ≤ 64
  | _ => false

def vImpactValue : Option JVal → Bool
  | some (JVal.jnum q) => 0 < q
  | _ => false

def vEvidenceUrl : Option JVal → Bool
  | none => true
  | some (JVal.jstr s) => isUrl s && s.length ≤ 2048
  | _ => false

/-- Model of `contributionSchema.safeParse(req.body).success`. -/
def contributionValid (b : ContribBody) : Bool :=
  vUuidField b.userId && vUuidField b.projectId && vImpactType b.impactType
    && vImpactValue b.impactValue && vEvidenceUrl b.evidenceUrl

/-- Which awaited step of the contributions handler throws, if any. -/
inductive CFail
  | ok
  | atConnect
  | atBegin
  | atSet
  | atInsert
  | atCommit
  deriving DecidableEq, Repr

/-- Environment of one contributions request: the failing step (if any), the
`code` property of the thrown error, and the generated transaction id. -/
structure ContribEnv where
  failAt : CFail
  errCode : Option String
  tid : String
  deriving Repr

/-- The catch-block classification of the contributions handler. -/
def classifyContribErr (code : Option String) : HttpResponse :=
  if code = some ("23503") then errResp 404 "FK_REFERENCE_NOT_FOUND"
  else if code = some ("40001") then errResp 409 "SERIALIZATION_FAILURE"
  else errResp 500 "CONTRIBUTION_WRITE_FAILED"

/-- Model of the POST /api/v1/contributions handler.  Traces follow the
source: validation happens before `pool.connect()`; on a throw after
acquisition the catch issues ROLLBACK (the client is set) and the error code
is classified; `finally` releases exactly when the client was acquired. -/
def contributionsRun (body : ContribBody) (env : ContribEnv) :
    HttpResponse × List Ev :=
  if !contributionValid body then
    (errResp 400 "VALIDATION_ERROR", [])
  else
    match env.failAt with
    | CFail.atConnect =>
        -- pool.connect() rejected: dbClient stays unset, no rollback/release
        (classifyContribErr env.errCode, [])
    | CFail.atBegin =>
        (classifyContribErr env.errCode,
          [Ev.acquire, Ev.qBegin, Ev.qRollback, Ev.release])
    | CFail.atSet =>
        (classifyContribErr env.errCode,
          [Ev.acquire, Ev.qBegin, Ev.qSetSerializable, Ev.qRollback, Ev.release])
    | CFail.atInsert =>
        (classifyContribErr env.errCode,
          [Ev.acquire, Ev.qBegin, Ev.qSetSerializable,
           Ev.qData ("insert_impact_ledger"), Ev.qRollback, Ev.release])
    | CFail.atCommit =>
        (classifyContribErr env.errCode,
          [Ev.acquire, Ev.qBegin, Ev.qSetSerializable,
           Ev.qData ("insert_impact_ledger"), Ev.qCommit, Ev.qRollback, Ev.release])
    | CFail.ok =>
        (⟨201, some true, none, some env.tid⟩,
          [Ev.acquire, Ev.qBegin, Ev.qSetSerializable,
           Ev.qData ("insert_impact_ledger"), Ev.qCommit, Ev.release])

/-! ## SchemaCapabilityProbe and project data model (routes/projects.js) -/

inductive ProjectStatus
  | OPEN
  | IN_PROGRESS
  | COMPLETED
  | CANCELLED
  deriving DecidableEq, Repr

inductive AppStatus
  | PENDING
  | APPROVED
  | REJECTED
  deriving DecidableEq, Repr

/-- Capability set computed by `getProjectColumnCapabilities`. -/
structure Caps where
  hasDescription : Bool
  hasStatus : Bool
  hasGeoPoint : Bool
  hasContactEmail : Bool
  geoPointRequired : Bool
  deriving DecidableEq, Repr

/-- The probe input: the `information_schema.columns` rows for the `projects`
table, as pairs of column name and the `is_nullable = NO` flag. -/
abbrev ColumnRows := List (String × Bool)

def listContainsStr : List String → String → Bool
  | [], _ => false
  | x :: rest, s => if x = s then true else listContainsStr rest s

/-- Model of `getProjectColumnCapabilities`: presence from the column-name
set, requiredness from the not-null subset of the same rows. -/
def getProjectColumnCapabilities (rows : ColumnRows) : Caps :=
  let columns := rows.map Prod.fst
  let nonNullable := (rows.filter Prod.snd).map Prod.fst
  { hasDescription := listContainsStr columns ("description")
    hasStatus := listContainsStr columns ("status")
    hasGeoPoint := listContainsStr columns ("geo_point")
    hasContactEmail := listContainsStr columns ("contact_email")
    geoPointRequired := listContainsStr nonNullable ("geo_point") }

/-- A row of the `projects` table as read back by the handlers (`status` kept
optional because the code guards `project.status &&`). -/
structure ProjRow where
  id : String
  name : String
  status : Option ProjectStatus
  deriving DecidableEq, Repr

/-- A row of the `project_applications` table. -/
structure AppRow where
  id : String
  projectId : String
  volunteerName : String
  volunteerEmail : String
  message : String
  status : AppStatus
  decisionNote : Option String
  createdAt : Nat
  reviewedAt : Option Nat
  deriving DecidableEq, Repr

/-- Database state visible to the project/application routes. -/
structure DbState where
  projects : List ProjRow
  applications : List AppRow
  applicationsTablePresent : Bool
  projectColumns : ColumnRows
  deriving Repr

/-- SELECT ... FROM projects WHERE id = the given id (ids unique by PK). -/
def findProject (db : DbState) (pid : String) : Option ProjRow :=
  db.projects.find? (fun p => p.id = pid)

/-- The route guard `project.status && !ACTIVE_PROJECT_STATUSES.has(status)`. -/
def projectClosed : Option ProjectStatus → Bool
  | some s => !(s = ProjectStatus.OPEN || s = ProjectStatus.IN_PROGRESS)
  | none => false

/-! ## ProjectIntakeService: POST / and POST /public (routes/projects.js) -/

/-- Parsed project-create payload after zod validation (`latitude` and
`longitude` are numbers or absent; the admin schema supplies `status`, the
public route forces OPEN). -/
structure ProjData where
  name : String
  description : String
  latitude : Option Rat
  longitude : Option Rat
  contactEmail : Option String
  status : ProjectStatus
  deriving Repr

/-- Which awaited step of a project-create request throws, if any. -/
inductive PFail
  | ok
  | atConnect
  | atBegin
  | atSet
  | atProbe
  | atInsert
  | atCommit
  deriving DecidableEq, Repr

structure ProjEnv where
  failAt : PFail
  errCode : Option String
  newId : String
  deriving Repr

/-- Shared catch-block classification of both project-create routes. -/
def classifyProjectErr (code : Option String) : HttpResponse :=
  if code = some ("40001") then errResp 409 "SERIALIZATION_FAILURE"
  else if code = some ("23502") then errResp 400 "PROJECT_SCHEMA_CONSTRAINT"
  else if code = some ("PROJECT_COORDINATES_REQUIRED") then
    errResp 400 "PROJECT_COORDINATES_REQUIRED"
  else errResp 500 "PROJECT_CREATE_FAILED"

/-- Model of the shared body of POST /api/v1/projects and
POST /api/v1/projects/public: BEGIN, SET LOCAL, then `insertProject`
(capability probe, the two guard checks, the schema-adaptive INSERT), COMMIT.
`valid` stands for the zod `safeParse` outcome on the raw body.  Thrown guard
errors carry the code the source attaches (none for the metadata-unavailable
error, PROJECT_COORDINATES_REQUIRED for the missing-coordinates error). -/
def projectCreateRun (data : ProjData) (valid : Bool) (cols : ColumnRows)
    (env : ProjEnv) : HttpResponse × List Ev :=
  if !valid then
    (errResp 400 "VALIDATION_ERROR", [])
  else if env.failAt = PFail.atConnect then
    (classifyProjectErr env.errCode, [])
  else if env.failAt = PFail.atBegin then
    (classifyProjectErr env.errCode, [Ev.acquire, Ev.qBegin, Ev.qRollback, Ev.release])
  else if env.failAt = PFail.atSet then
    (classifyProjectErr env.errCode,
      [Ev.acquire, Ev.qBegin, Ev.qSetSerializable, Ev.qRollback, Ev.release])
  else
    let pre := [Ev.acquire, Ev.qBegin, Ev.qSetSerializable,
                Ev.qData ("select_project_capabilities")]
    if env.failAt = PFail.atProbe then
      (classifyProjectErr env.errCode, pre ++ [Ev.qRollback, Ev.release])
    else
      let caps := getProjectColumnCapabilities cols
      let hasCoordinates := data.latitude.isSome && data.longitude.isSome
      if caps.geoPointRequired && !caps.hasGeoPoint then
        -- plain Error (no code): classified as the generic write failure
        (classifyProjectErr none, pre ++ [Ev.qRollback, Ev.release])
      else if caps.geoPointRequired && !hasCoordinates then
        (classifyProjectErr (some ("PROJECT_COORDINATES_REQUIRED")),
          pre ++ [Ev.qRollback, Ev.release])
      else
        let withInsert := pre ++ [Ev.qData ("insert_project")]
        if env.failAt = PFail.atInsert then
          (classifyProjectErr env.errCode, withInsert ++ [Ev.qRollback, Ev.release])
        else if env.failAt = PFail.atCommit then
          (classifyProjectErr env.errCode,
            withInsert ++ [Ev.qCommit, Ev.qRollback, Ev.release])
        else
          (⟨201, some true, none, none⟩, withInsert ++ [Ev.qCommit, Ev.release])

/-- POST /api/v1/projects/public forces status OPEN before insertion. -/
def projectPublicCreateRun (data : ProjData) (valid : Bool) (cols : ColumnRows)
    (env : ProjEnv) : HttpResponse × List Ev :=
  projectCreateRun { data with status := ProjectStatus.OPEN } valid cols env

/-! ## GET /api/v1/projects (routes/projects.js) -/

inductive LFail
  | ok
  | atConnect
  | atProbe
  | atSelect
  deriving DecidableEq, Repr

/-- Model of the project list handler: no transaction, a fresh capability
probe on every request, 500 PROJECT_LIST_FAILED on any throw, release in
finally. -/
def projectsListRun (valid : Bool) (env : LFail) : HttpResponse × List Ev :=
  if !valid then
    (errResp 400 "VALIDATION_ERROR", [])
  else
    match env with
    | LFail.atConnect => (errResp 500 "PROJECT_LIST_FAILED", [])
    | LFail.atProbe =>
        (errResp 500 "PROJECT_LIST_FAILED",
          [Ev.acquire, Ev.qData ("select_project_capabilities"), Ev.release])
    | LFail.atSelect =>
        (errResp 500 "PROJECT_LIST_FAILED",
          [Ev.acquire, Ev.qData ("select_project_capabilities"),
           Ev.qData ("select_projects"), Ev.release])
    | LFail.ok =>
        (⟨200, none, none, none⟩,
          [Ev.acquire, Ev.qData ("select_project_capabilities"),
           Ev.qData ("select_projects"), Ev.release])

/-! ## PATCH /api/v1/projects/:projectId/status (routes/projects.js) -/

inductive SFail
  | ok
  | atConnect
  | atProbe
  | atUpdate
  deriving DecidableEq, Repr

/-- Model of the project status update handler (manager guarded upstream):
no transaction; probe, availability check, unconditional UPDATE, 404 when no
row matched; 500 on any throw; release in finally. -/
def projectsStatusPatchRun (pid : String) (newStatus : ProjectStatus)
    (valid : Bool) (db : DbState) (env : SFail) :
    HttpResponse × DbState × List Ev :=
  if !valid then
    (errResp 400 "VALIDATION_ERROR", db, [])
  else
    match env with
    | SFail.atConnect => (errResp 500 "PROJECT_STATUS_UPDATE_FAILED", db, [])
    | SFail.atProbe =>
        (errResp 500 "PROJECT_STATUS_UPDATE_FAILED", db,
          [Ev.acquire, Ev.qData ("select_project_capabilities"), Ev.release])
    | SFail.atUpdate =>
        if !(getProjectColumnCapabilities db.projectColumns).hasStatus then
          (errResp 500 "PROJECT_STATUS_UNAVAILABLE", db,
            [Ev.acquire, Ev.qData ("select_project_capabilities"), Ev.release])
        else
          (errResp 500 "PROJECT_STATUS_UPDATE_FAILED", db,
            [Ev.acquire, Ev.qData ("select_project_capabilities"),
             Ev.qData ("update_project_status"), Ev.release])
    | SFail.ok =>
        if !(getProjectColumnCapabilities db.projectColumns).hasStatus then
          (errResp 500 "PROJECT_STATUS_UNAVAILABLE", db,
            [Ev.acquire, Ev.qData ("select_project_capabilities"), Ev.release])
        else
          let evs := [Ev.acquire, Ev.qData ("select_project_capabilities"),
                      Ev.qData ("update_project_status"), Ev.release]
          let matched := db.projects.filter (fun p => p.id = pid)
          if matched.length = 0 then
            (errResp 404 "PROJECT_NOT_FOUND", db, evs)
          else
            (⟨200, some true, none, none⟩,
              { db with projects :=
                  db.projects.map fun p =>
                    if p.id = pid then { p with status := some newStatus } else p },
              evs)

/-! ## ApplicationWorkflowService (routes/projects.js, application endpoints) -/

/-- Parsed application-create payload after zod validation. -/
structure AppCreateBody where
  volunteerName : String
  volunteerEmail : String
  message : String
  deriving Repr

/-- Result of an application-route handler: response, the application row the
response body carries (if any), the database after the request, and the
event trace. -/
structure HandlerResult where
  resp : HttpResponse
  application : Option AppRow
  db : DbState
  evs : List Ev
  deriving Repr

/-- Which awaited step of the application-create handler throws, if any. -/
inductive AFail
  | ok
  | atConnect
  | atTable
  | atCaps
  | atProject
  | atInsert
  deriving DecidableEq, Repr

def appErr (status : Nat) (code : String) (db : DbState) (evs : List Ev) :
    HandlerResult :=
  ⟨errResp status code, none, db, evs⟩

/-- Model of POST /api/v1/projects/:projectId/applications.  The handler
opens no transaction: the applications-table existence check, the capability
probe, the project lookup and the INSERT all run in autocommit mode on the
checked-out client.  Any throw is answered 500
PROJECT_APPLICATION_CREATE_FAILED with no ROLLBACK; `finally` releases when
the client was acquired.  `valid` stands for the zod `safeParse` outcome on
params and body; `newId`/`now` stand for the DB-generated id and timestamp. -/
def applicationsCreateRun (pid : String) (body : AppCreateBody) (valid : Bool)
    (db : DbState) (newId : String) (now : Nat) (env : AFail) : HandlerResult :=
  if !valid then
    appErr 400 "VALIDATION_ERROR" db []
  else if env = AFail.atConnect then
    appErr 500 "PROJECT_APPLICATION_CREATE_FAILED" db []
  else
    let evs1 := [Ev.acquire, Ev.qData ("select_applications_table_exists")]
    if env = AFail.atTable then
      appErr 500 "PROJECT_APPLICATION_CREATE_FAILED" db (evs1 ++ [Ev.release])
    else if !db.applicationsTablePresent then
      appErr 503 "PROJECT_APPLICATIONS_UNAVAILABLE" db (evs1 ++ [Ev.release])
    else
      let evs2 := evs1 ++ [Ev.qData ("select_project_capabilities")]
      if env = AFail.atCaps then
        appErr 500 "PROJECT_APPLICATION_CREATE_FAILED" db (evs2 ++ [Ev.release])
      else
        let evs3 := evs2 ++ [Ev.qData ("select_project")]
        if env = AFail.atProject then
          appErr 500 "PROJECT_APPLICATION_CREATE_FAILED" db (evs3 ++ [Ev.release])
        else
          match findProject db pid with
          | none => appErr 404 "PROJECT_NOT_FOUND" db (evs3 ++ [Ev.release])
          | some p =>
            if projectClosed p.status then
              appErr 409 "PROJECT_NOT_OPEN" db (evs3 ++ [Ev.release])
            else
              let evs4 := evs3 ++ [Ev.qData ("insert_application")]
              if env = AFail.atInsert then
                appErr 500 "PROJECT_APPLICATION_CREATE_FAILED" db
                  (evs4 ++ [Ev.release])
              else
                let row : AppRow :=
                  ⟨newId, pid, body.volunteerName, body.volunteerEmail,
                   body.message, AppStatus.PENDING, none, now, none⟩
                ⟨⟨201, some true, none, none⟩, some row,
                 { db with applications := db.applications ++ [row] },
                 evs4 ++ [Ev.release]⟩

/-- Which awaited step of the application list handler throws, if any. -/
inductive GFail
  | ok
  | atConnect
  | atTable
  | atProject
  | atSelect
  deriving DecidableEq, Repr

/-- Model of GET /api/v1/projects/:projectId/applications (manager guarded
upstream): table check, project lookup, SELECT; no transaction, no rollback,
release in finally. -/
def applicationsListRun (pid : String) (valid : Bool) (db : DbState)
    (env : GFail) : HandlerResult :=
  if !valid then
    appErr 400 "VALIDATION_ERROR" db []
  else if env = GFail.atConnect then
    appErr 500 "PROJECT_APPLICATION_LIST_FAILED" db []
  else
    let evs1 := [Ev.acquire, Ev.qData ("select_applications_table_exists")]
    if env = GFail.atTable then
      appErr 500 "PROJECT_APPLICATION_LIST_FAILED" db (evs1 ++ [Ev.release])
    else if !db.applicationsTablePresent then
      appErr 503 "PROJECT_APPLICATIONS_UNAVAILABLE" db (evs1 ++ [Ev.release])
    else
      let evs2 := evs1 ++ [Ev.qData ("select_project")]
      if env = GFail.atProject then
        appErr 500 "PROJECT_APPLICATION_LIST_FAILED" db (evs2 ++ [Ev.release])
      else
        match findProject db pid with
        | none => appErr 404 "PROJECT_NOT_FOUND" db (evs2 ++ [Ev.release])
        | some _ =>
          let evs3 := evs2 ++ [Ev.qData ("select_applications")]
          if env = GFail.atSelect then
            appErr 500 "PROJECT_APPLICATION_LIST_FAILED" db (evs3 ++ [Ev.release])
          else
            ⟨⟨200, none, none, none⟩, none, db, evs3 ++ [Ev.release]⟩

/-- The decision statuses the zod schema accepts: `z.enum(APPROVED, REJECTED)`. -/
inductive Decision
  | APPROVED
  | REJECTED
  deriving DecidableEq, Repr

def Decision.toStatus : Decision → AppStatus
  | Decision.APPROVED => AppStatus.APPROVED
  | Decision.REJECTED => AppStatus.REJECTED

/-- The SET clause of the decision UPDATE, applied to a row that matches on
both application id and project id jointly. -/
def decideApp (dec : Decision) (note : Option String) (now : Nat)
    (appId pid : String) (r : AppRow) : AppRow :=
  if r.id = appId ∧ r.projectId = pid then
    { r with status := dec.toStatus, decisionNote := note, reviewedAt := some now }
  else r

/-- Rows the decision UPDATE matches. -/
def decideMatchCount (db : DbState) (appId pid : String) : Nat :=
  (db.applications.filter (fun r => r.id = appId ∧ r.projectId = pid)).length

/-- Which awaited step of the decision handler throws, if any. -/
inductive DFail
  | ok
  | atConnect
  | atTable
  | atUpdate
  deriving DecidableEq, Repr

/-- Model of PATCH /api/v1/projects/:projectId/applications/:applicationId/status
(manager guarded upstream): table check, then a single UPDATE setting status,
decision note and `reviewed_at = CURRENT_TIMESTAMP` on the row matching both
ids; 404 when no row matched; no transaction, no rollback, release in
finally. -/
def applicationsDecideRun (pid appId : String) (dec : Decision)
    (note : Option String) (valid : Bool) (db : DbState) (now : Nat)
    (env : DFail) : HandlerResult :=
  if !valid then
    appErr 400 "VALIDATION_ERROR" db []
  else if env = DFail.atConnect then
    appErr 500 "PROJECT_APPLICATION_STATUS_UPDATE_FAILED" db []
  else
    let evs1 := [Ev.acquire, Ev.qData ("select_applications_table_exists")]
    if env = DFail.atTable then
      appErr 500 "PROJECT_APPLICATION_STATUS_UPDATE_FAILED" db (evs1 ++ [Ev.release])
    else if !db.applicationsTablePresent then
      appErr 503 "PROJECT_APPLICATIONS_UNAVAILABLE" db (evs1 ++ [Ev.release])
    else
      let evs2 := evs1 ++ [Ev.qData ("update_application_status")]
      if env = DFail.atUpdate then
        appErr 500 "PROJECT_APPLICATION_STATUS_UPDATE_FAILED" db (evs2 ++ [Ev.release])
      else
        let db' := { db with applications :=
          db.applications.map (decideApp dec note now appId pid) }
        if decideMatchCount db appId pid = 0 then
          appErr 404 "PROJECT_APPLICATION_NOT_FOUND" db' (evs2 ++ [Ev.release])
        else
          let updated := (db'.applications.filter
            (fun r => r.id = appId ∧ r.projectId = pid)).head?
          ⟨⟨200, some true, none, none⟩, updated, db', evs2 ++ [Ev.release]⟩

/-! ## Volunteer upsert: POST /api/v1/volunteers (routes/volunteers.js) -/

inductive VFail
  | ok
  | atConnect
  | atBegin
  | atSet
  | atUpsert
  | atCommit
  deriving DecidableEq, Repr

structure VolunteerEnv where
  failAt : VFail
  errCode : Option String
  deriving Repr

/-- The catch-block classification of the volunteers handler. -/
def classifyVolunteerErr (code : Option String) : HttpResponse :=
  if code = some ("40001") then errResp 409 "SERIALIZATION_FAILURE"
  else errResp 500 "VOLUNTEER_CREATE_FAILED"

/-- Model of the POST /api/v1/volunteers handler: BEGIN, SET LOCAL, the
INSERT ... ON CONFLICT (email) DO UPDATE upsert, COMMIT; catch classifies
40001, rollback when the client is set, release in finally.  (The post-commit
best-effort indexing call touches no database connection and is outside this
trace.) -/
def volunteersRun (valid : Bool) (env : VolunteerEnv) : HttpResponse × List Ev :=
  if !valid then
    (errResp 400 "VALIDATION_ERROR", [])
  else
    match env.failAt with
    | VFail.atConnect => (classifyVolunteerErr env.errCode, [])
    | VFail.atBegin =>
        (classifyVolunteerErr env.errCode,
          [Ev.acquire, Ev.qBegin, Ev.qRollback, Ev.release])
    | VFail.atSet =>
        (classifyVolunteerErr env.errCode,
          [Ev.acquire, Ev.qBegin, Ev.qSetSerializable, Ev.qRollback, Ev.release])
    | VFail.atUpsert =>
        (classifyVolunteerErr env.errCode,
          [Ev.acquire, Ev.qBegin, Ev.qSetSerializable,
           Ev.qData ("upsert_user"), Ev.qRollback, Ev.release])
    | VFail.atCommit =>
        (classifyVolunteerErr env.errCode,
          [Ev.acquire, Ev.qBegin, Ev.qSetSerializable,
           Ev.qData ("upsert_user"), Ev.qCommit, Ev.qRollback, Ev.release])
    | VFail.ok =>
        (⟨201, some true, none, none⟩,
          [Ev.acquire, Ev.qBegin, Ev.qSetSerializable,
           Ev.qData ("upsert_user"), Ev.qCommit, Ev.release])

/-! ## Concrete fixtures (drawn from the seed data and tests) -/

def openProjectRow : ProjRow :=
  ⟨"770e8400-e29b-41d4-a716-446655441111", "Test Sustainability Project",
   some ProjectStatus.OPEN⟩

def completedProjectRow : ProjRow :=
  ⟨"880e8400-e29b-41d4-a716-446655442222", "Finished Harvest Project",
   some ProjectStatus.COMPLETED⟩

def baseColumns : ColumnRows :=
  [("id", true), ("name", true), ("description", true), ("status", true),
   ("created_at", true), ("contact_email", false)]

def geoRequiredColumns : ColumnRows := baseColumns ++ [("geo_point", true)]

def db0 : DbState := ⟨[openProjectRow, completedProjectRow], [], true, baseColumns⟩

def validAppBody : AppCreateBody :=
  ⟨"Amina Solar", "amina@enturk.org",
   "I would like to help with the installation work on this project."⟩

def newAppId : String := "990e8400-e29b-41d4-a716-446655443333"

def managerToken : DecodedToken :=
  ⟨[("projectManager", ClaimVal.b true)], "uid-mgr-1", some ("mgr@enturk.org")⟩

def goodContribBody : ContribBody :=
  ⟨some (JVal.jstr ("550e8400-e29b-41d4-a716-446655440000")),
   some (JVal.jstr ("770e8400-e29b-41d4-a716-446655441111")),
   some (JVal.jstr ("hours")),
   some (JVal.jnum (5 : Rat)),
   some (JVal.jstr ("https://s3.amazon.com/enturk-proof/photo1.jpg"))⟩

/-- The body of the end-to-end validation scenario: impactValue is -5. -/
def negContribBody : ContribBody :=
  { goodContribBody with impactValue := some (JVal.jnum (-5 : Rat)) }

def contribEnvOk : ContribEnv :=
  ⟨CFail.ok, none, "990e8400-e29b-41d4-a716-446655442222"⟩

def noCoordsProjData : ProjData :=
  ⟨"River Cleanup Autumn", "A community river cleanup needing many hands.",
   none, none, none, ProjectStatus.OPEN⟩

/-- The invariant of the application workflow: a row is PENDING exactly when
its reviewed timestamp is null. -/
def pendingIffUnreviewed (r : AppRow) : Bool :=
  (r.status == AppStatus.PENDING) == r.reviewedAt.isNone

def pendingAppRow : AppRow :=
  ⟨newAppId, openProjectRow.id, "Amina Solar", "amina@enturk.org",
   "I would like to help with the installation work on this project.",
   AppStatus.PENDING, none, 50, none⟩

def db1 : DbState :=
  ⟨[openProjectRow, completedProjectRow], [pendingAppRow], true, baseColumns⟩

def decidedAppRow : AppRow :=
  ⟨newAppId, openProjectRow.id, "Amina Solar", "amina@enturk.org",
   "I would like to help with the installation work on this project.",
   AppStatus.APPROVED, some ("great fit"), 50, some 120⟩

/-- Release discipline of a trace: the connection is released exactly once
when it was acquired, never when acquisition failed. -/
def releaseDiscipline (evs : List Ev) : Bool :=
  releaseCount evs == (if wasAcquired evs then 1 else 0)

/-- Rollback discipline of a trace: on a failure response produced after
acquisition, a ROLLBACK precedes the release. -/
def rollbackDiscipline (resp : HttpResponse) (evs : List Ev) : Bool :=
  !(wasAcquired evs && decide (400 ≤ resp.status)) || rollbackBeforeRelease evs

def isProbeQuery : Ev → Bool
  | Ev.qData n => n == "select_project_capabilities"
  | _ => false

/-- How many information_schema capability probes a trace issues. -/
def probeCount (evs : List Ev) : Nat := (evs.filter isProbeQuery).length

/-- Exactly one capability probe per request that acquired a connection. -/
def probedOncePerAcquire (evs : List Ev) : Bool :=
  probeCount evs == (if wasAcquired evs then 1 else 0)

/-! ## Claim theorems -/

/-- Helper: a denial produced by `rateLimitStep` always carries a
Retry-After of at least one second. -/
theorem rateLimitStep_deny_ge_one (windowMs maxRequests : Nat) (st : RLState)
    (key : String) (now : Nat) (r : Nat) (st' : RLState)
    (h : rateLimitStep windowMs maxRequests st key now = (RLDecision.deny r, st')) :
    1 ≤ r := by
  unfold rateLimitStep at h
  split at h
  · exact absurd h (by simp)
  · split at h
    · exact absurd h (by simp)
    · split at h
      · cases h
        exact Nat.le_max_left 1 _
      · exact absurd h (by simp)

/-- C7: the per-client rate limiter is a fixed window: a request from an
unknown key, or one at or after the bucket expiry, resets the bucket to
count 1 with expiry now + window and is let through; with maxRequests = 3 the
fourth request inside the window is denied while the first three are
let through; every denial is surfaced as a 429 response whose Retry-After value
is at least one second. -/
theorem rateLimiter_fixed_window_spec :
    (∀ (windowMs maxRequests : Nat) (st : RLState) (key : String) (now : Nat),
        (rlLookup st key = none ∨
          ∃ b, rlLookup st key = some b ∧ b.resetAt ≤ now) →
        rateLimitStep windowMs maxRequests st key now =
          (RLDecision.allow, rlSet st key ⟨1, now + windowMs⟩))
    ∧ (∀ (windowMs : Nat) (key : String) (t1 t2 t3 t4 : Nat),
        0 < windowMs → t1 ≤ t2 → t2 ≤ t3 → t3 ≤ t4 → t4 < t1 + windowMs →
        (rlRun windowMs (parseNumber (some 3) 30) [] key [t1, t2, t3, t4]).1 =
          [RLDecision.allow, RLDecision.allow, RLDecision.allow,
           RLDecision.deny (max 1 (ceilDiv1000 (t1 + windowMs - t4)))])
    ∧ (∀ (windowMs maxRequests : Nat) (st : RLState) (key : String)
          (now : Nat) (ec : String) (r : Nat) (st' : RLState),
        rateLimitStep windowMs maxRequests st key now = (RLDecision.deny r, st') →
        rateLimitHandle windowMs maxRequests st key now ec =
          (some (errResp 429 ec, r), st') ∧ 1 ≤ r) := by
  refine ⟨?_, ?_, ?_⟩
  · intro windowMs maxRequests st key now h
    rcases h with hnone | ⟨b, hb, hexp⟩
    · unfold rateLimitStep
      rw [hnone]
    · unfold rateLimitStep
      rw [hb]
      simp only [if_pos hexp]
  · intro windowMs key t1 t2 t3 t4 hW h12 h23 h34 h4
    rw [show parseNumber (some 3) 30 = 3 from by decide]
    have s1 : rateLimitStep windowMs 3 [] key t1 =
        (RLDecision.allow, [(key, ⟨1, t1 + windowMs⟩)]) := by
      simp [rateLimitStep, rlLookup, rlSet]
    have h2 : ¬ (t1 + windowMs ≤ t2) := by omega
    have h3 : ¬ (t1 + windowMs ≤ t3) := by omega
    have h4' : ¬ (t1 + windowMs ≤ t4) := by omega
    have s2 : rateLimitStep windowMs 3 [(key, ⟨1, t1 + windowMs⟩)] key t2 =
        (RLDecision.allow, [(key, ⟨2, t1 + windowMs⟩)]) := by
      simp [rateLimitStep, rlLookup, rlSet, h2]
    have s3 : rateLimitStep windowMs 3 [(key, ⟨2, t1 + windowMs⟩)] key t3 =
        (RLDecision.allow, [(key, ⟨3, t1 + windowMs⟩)]) := by
      simp [rateLimitStep, rlLookup, rlSet, h3]
    have s4 : rateLimitStep windowMs 3 [(key, ⟨3, t1 + windowMs⟩)] key t4 =
        (RLDecision.deny (max 1 (ceilDiv1000 (t1 + windowMs - t4))),
         [(key, ⟨3, t1 + windowMs⟩)]) := by
      simp [rateLimitStep, rlLookup, rlSet, h4']
    simp [rlRun, s1, s2, s3, s4]
  · intro windowMs maxRequests st key now ec r st' h
    refine ⟨?_, rateLimitStep_deny_ge_one windowMs maxRequests st key now r st' h⟩
    unfold rateLimitHandle
    rw [h]

/-- Witness for the rate limiter claim: with maxRequests 3 and a 600000 ms
window, four requests from one client at times 0,1,2,3 are classified
allow, allow, allow, deny. -/
theorem rateLimiter_fixed_window_spec_witness :
    (rlRun 600000 (parseNumber (some 3) 30) [] "203.0.113.7" [0, 1, 2, 3]).1 =
      [RLDecision.allow, RLDecision.allow, RLDecision.allow,
       RLDecision.deny (max 1 (ceilDiv1000 (0 + 600000 - 3)))] :=
  rateLimiter_fixed_window_spec.2.1 600000 "203.0.113.7" 0 1 2 3
    (by decide) (by decide) (by decide) (by decide) (by decide)

/-- C6: the manager guard answers a request with no bearer token 401 without
consulting the identity provider; a configured-provider failure is 503
FIREBASE_NOT_CONFIGURED; a failed verification is 401; a verified token
resolving no manager claim and no allow-listed email is 403; and only on
success is control passed onward with the caller uid and email attached. -/
theorem manager_guard_classification (cfg : AuthConfig)
    (header : Option String) (clientRes : ClientRes) (verifyRes : VerifyRes) :
    (extractBearerToken header = "" →
      requireFirebaseManager cfg header clientRes verifyRes =
        (AuthOutcome.respond (errResp 401 "UNAUTHORIZED"), false))
    ∧ (extractBearerToken header ≠ "" → clientRes = ClientRes.notConfigured →
      requireFirebaseManager cfg header clientRes verifyRes =
        (AuthOutcome.respond (errResp 503 "FIREBASE_NOT_CONFIGURED"), true))
    ∧ (extractBearerToken header ≠ "" → clientRes = ClientRes.ok →
      verifyRes = VerifyRes.fail →
      requireFirebaseManager cfg header clientRes verifyRes =
        (AuthOutcome.respond (errResp 401 "UNAUTHORIZED"), true))
    ∧ (∀ t, extractBearerToken header ≠ "" → clientRes = ClientRes.ok →
      verifyRes = VerifyRes.ok t → decodedTokenHasManagerAccess cfg t = false →
      requireFirebaseManager cfg header clientRes verifyRes =
        (AuthOutcome.respond (errResp 403 "FORBIDDEN"), true))
    ∧ (∀ t, extractBearerToken header ≠ "" → clientRes = ClientRes.ok →
      verifyRes = VerifyRes.ok t → decodedTokenHasManagerAccess cfg t = true →
      requireFirebaseManager cfg header clientRes verifyRes =
        (AuthOutcome.proceed t.uid t.email, true)) := by
  refine ⟨?_, ?_, ?_, ?_, ?_⟩
  · intro h
    unfold requireFirebaseManager
    rw [if_pos h]
  · intro h hc
    subst hc
    unfold requireFirebaseManager
    rw [if_neg h]
  · intro h hc hv
    subst hc; subst hv
    unfold requireFirebaseManager
    rw [if_neg h]
  · intro t h hc hv ha
    subst hc; subst hv
    unfold requireFirebaseManager
    rw [if_neg h]
    simp [ha]
  · intro t h hc hv ha
    subst hc; subst hv
    unfold requireFirebaseManager
    rw [if_neg h]
    simp [ha]

/-- Witness for the manager guard claim: with the default configuration, a
bearer token whose projectManager claim is literally true passes the guard
and the handler sees the caller uid and email. -/
theorem manager_guard_classification_witness :
    requireFirebaseManager defaultAuthConfig (some ("Bearer good-token"))
      ClientRes.ok (VerifyRes.ok managerToken) =
      (AuthOutcome.proceed ("uid-mgr-1") (some ("mgr@enturk.org")), true) :=
  (manager_guard_classification defaultAuthConfig (some ("Bearer good-token"))
      ClientRes.ok (VerifyRes.ok managerToken)).2.2.2.2 managerToken
    (by decide) rfl rfl (by decide)

/-- C3: the contributions endpoint classifies every outcome: an invalid
payload is answered 400 VALIDATION_ERROR without acquiring a connection; a
valid committed write is answered 201 with success and the generated
transaction id; a thrown error with engine code 23503 is 404
FK_REFERENCE_NOT_FOUND, code 40001 is 409 SERIALIZATION_FAILURE, anything
else is 500 CONTRIBUTION_WRITE_FAILED; and the errorCode field never carries
anything outside this closed set. -/
theorem contributions_outcome_classification (body : ContribBody)
    (env : ContribEnv) :
    (contributionValid body = false →
      (contributionsRun body env).1 = errResp 400 "VALIDATION_ERROR"
        ∧ wasAcquired (contributionsRun body env).2 = false)
    ∧ (contributionValid body = true → env.failAt = CFail.ok →
      (contributionsRun body env).1 = ⟨201, some true, none, some env.tid⟩)
    ∧ (contributionValid body = true → env.failAt ≠ CFail.ok →
      env.errCode = some ("23503") →
      (contributionsRun body env).1 = errResp 404 "FK_REFERENCE_NOT_FOUND")
    ∧ (contributionValid body = true → env.failAt ≠ CFail.ok →
      env.errCode = some ("40001") →
      (contributionsRun body env).1 = errResp 409 "SERIALIZATION_FAILURE")
    ∧ (contributionValid body = true → env.failAt ≠ CFail.ok →
      env.errCode ≠ some ("23503") → env.errCode ≠ some ("40001") →
      (contributionsRun body env).1 = errResp 500 "CONTRIBUTION_WRITE_FAILED")
    ∧ ((contributionsRun body env).1.errorCode ∈
        [none, some ("VALIDATION_ERROR"), some ("FK_REFERENCE_NOT_FOUND"),
         some ("SERIALIZATION_FAILURE"), some ("CONTRIBUTION_WRITE_FAILED")]) := by
  obtain ⟨fp, code, tid⟩ := env
  refine ⟨?_, ?_, ?_, ?_, ?_, ?_⟩
  · intro hv
    constructor <;> simp [contributionsRun, hv, wasAcquired]
  · intro hv hf
    simp only at hf
    subst hf
    simp [contributionsRun, hv]
  · intro hv hf hc
    simp only at hc
    subst hc
    cases fp <;> simp_all [contributionsRun, classifyContribErr]
  · intro hv hf hc
    simp only at hc
    subst hc
    cases fp <;> simp_all [contributionsRun, classifyContribErr]
  · intro hv hf hc1 hc2
    cases fp <;>
      simp_all [contributionsRun, classifyContribErr]
  · by_cases hv : contributionValid body
    · cases fp <;>
        by_cases hc1 : code = some ("23503") <;>
        by_cases hc2 : code = some ("40001") <;>
        simp_all [contributionsRun, classifyContribErr, errResp]
    · simp [contributionsRun, hv, errResp]

/-- Witness for the contributions classification claim: the impactValue = -5
payload of the end-to-end scenario is answered 400 VALIDATION_ERROR with no
connection acquired, and the valid payload on the success path is answered
201 with the generated transaction id. -/
theorem contributions_outcome_classification_witness :
    ((contributionsRun negContribBody contribEnvOk).1 =
        errResp 400 "VALIDATION_ERROR"
      ∧ wasAcquired (contributionsRun negContribBody contribEnvOk).2 = false)
    ∧ (contributionsRun goodContribBody contribEnvOk).1 =
        ⟨201, some true, none, some ("990e8400-e29b-41d4-a716-446655442222")⟩ :=
  ⟨(contributions_outcome_classification negContribBody contribEnvOk).1
      (by decide),
   (contributions_outcome_classification goodContribBody contribEnvOk).2.1
      (by decide) rfl⟩

/-- The probe derives the not-null set by filtering the very rows whose names
form the column set, so a column reported required is always reported
present. -/
theorem geoPointRequired_imp_hasGeoPoint (rows : ColumnRows)
    (h : (getProjectColumnCapabilities rows).geoPointRequired = true) :
    (getProjectColumnCapabilities rows).hasGeoPoint = true := by
  simp only [getProjectColumnCapabilities] at h ⊢
  induction rows with
  | nil => simpa using h
  | cons head tail ih =>
    obtain ⟨c, nn⟩ := head
    by_cases hc : c = "geo_point"
    · simp [listContainsStr, hc]
    · cases nn <;> simp_all [listContainsStr, hc]

/-- C5: when the probe reports geo_point non-nullable and the payload omits
both coordinates, both project-create routes answer 400
PROJECT_COORDINATES_REQUIRED and never issue the projects INSERT (so no raw
NOT NULL constraint error can arise). -/
theorem project_coordinates_required (data : ProjData) (cols : ColumnRows)
    (env : ProjEnv)
    (hreq : (getProjectColumnCapabilities cols).geoPointRequired = true)
    (hlat : data.latitude = none) (hlng : data.longitude = none)
    (hc : env.failAt ≠ PFail.atConnect) (hb : env.failAt ≠ PFail.atBegin)
    (hs : env.failAt ≠ PFail.atSet) (hp : env.failAt ≠ PFail.atProbe) :
    ((projectCreateRun data true cols env).1 =
        errResp 400 "PROJECT_COORDINATES_REQUIRED"
      ∧ Ev.qData ("insert_project") ∉ (projectCreateRun data true cols env).2)
    ∧ ((projectPublicCreateRun data true cols env).1 =
        errResp 400 "PROJECT_COORDINATES_REQUIRED"
      ∧ Ev.qData ("insert_project") ∉ (projectPublicCreateRun data true cols env).2) := by
  have hgeo := geoPointRequired_imp_hasGeoPoint cols hreq
  have core : ∀ d : ProjData, d.latitude = none → d.longitude = none →
      (projectCreateRun d true cols env).1 =
          errResp 400 "PROJECT_COORDINATES_REQUIRED"
        ∧ Ev.qData ("insert_project") ∉ (projectCreateRun d true cols env).2 := by
    intro d hdlat hdlng
    unfold projectCreateRun
    rw [if_neg (by simp), if_neg (by simp [hc]), if_neg (by simp [hb]),
      if_neg (by simp [hs]), if_neg (by simp [hp])]
    simp [hreq, hgeo, hdlat, hdlng, classifyProjectErr]
  refine ⟨core data hlat hlng, ?_⟩
  exact core { data with status := ProjectStatus.OPEN } (by simp [hlat])
    (by simp [hlng])

/-- Witness for the coordinates-required claim: against a schema whose
geo_point column is NOT NULL, the coordinate-free payload is answered 400
PROJECT_COORDINATES_REQUIRED on both routes with no INSERT issued. -/
theorem project_coordinates_required_witness :
    ((projectCreateRun noCoordsProjData true geoRequiredColumns
        ⟨PFail.ok, none, "aa0e8400-e29b-41d4-a716-446655440011"⟩).1 =
      errResp 400 "PROJECT_COORDINATES_REQUIRED")
    ∧ ((projectPublicCreateRun noCoordsProjData true geoRequiredColumns
        ⟨PFail.ok, none, "aa0e8400-e29b-41d4-a716-446655440011"⟩).1 =
      errResp 400 "PROJECT_COORDINATES_REQUIRED") := by
  have h := project_coordinates_required noCoordsProjData geoRequiredColumns
    ⟨PFail.ok, none, "aa0e8400-e29b-41d4-a716-446655440011"⟩
    (by decide) rfl rfl (by decide) (by decide) (by decide) (by decide)
  exact ⟨h.1.1, h.2.1⟩

/-- C4: the application-create route classifies a valid request as 503 when
the project_applications table is not provisioned, else 404 when no project
row matches, else 409 PROJECT_NOT_OPEN with no row inserted when the project
status is COMPLETED or CANCELLED, and otherwise inserts exactly one PENDING
application row and answers 201 with it.  The DB-responds environment is
AFail.ok (no infrastructure throw). -/
theorem application_create_classification (pid : String) (body : AppCreateBody)
    (db : DbState) (newId : String) (now : Nat) :
    (db.applicationsTablePresent = false →
      (applicationsCreateRun pid body true db newId now AFail.ok).resp =
          errResp 503 "PROJECT_APPLICATIONS_UNAVAILABLE"
        ∧ (applicationsCreateRun pid body true db newId now AFail.ok).db = db)
    ∧ (db.applicationsTablePresent = true → findProject db pid = none →
      (applicationsCreateRun pid body true db newId now AFail.ok).resp =
          errResp 404 "PROJECT_NOT_FOUND"
        ∧ (applicationsCreateRun pid body true db newId now AFail.ok).db = db)
    ∧ (∀ p, db.applicationsTablePresent = true → findProject db pid = some p →
      (p.status = some ProjectStatus.COMPLETED
        ∨ p.status = some ProjectStatus.CANCELLED) →
      (applicationsCreateRun pid body true db newId now AFail.ok).resp =
          errResp 409 "PROJECT_NOT_OPEN"
        ∧ (applicationsCreateRun pid body true db newId now AFail.ok).db = db)
    ∧ (∀ p, db.applicationsTablePresent = true → findProject db pid = some p →
      ¬(p.status = some ProjectStatus.COMPLETED
        ∨ p.status = some ProjectStatus.CANCELLED) →
      ∃ row : AppRow,
        (applicationsCreateRun pid body true db newId now AFail.ok).resp.status = 201
        ∧ (applicationsCreateRun pid body true db newId now AFail.ok).application
            = some row
        ∧ row.status = AppStatus.PENDING
        ∧ row.reviewedAt = none
        ∧ (applicationsCreateRun pid body true db newId now AFail.ok).db.applications
            = db.applications ++ [row]) := by
  refine ⟨?_, ?_, ?_, ?_⟩
  · intro hpt
    constructor <;> simp [applicationsCreateRun, appErr, hpt]
  · intro hpt hfind
    constructor <;> simp [applicationsCreateRun, appErr, hpt, hfind]
  · intro p hpt hfind hclosed
    have hcl : projectClosed p.status = true := by
      rcases hclosed with h | h <;> simp [projectClosed, h]
    constructor <;> simp [applicationsCreateRun, appErr, hpt, hfind, hcl]
  · intro p hpt hfind hopen
    have hcl : projectClosed p.status = false := by
      match hst : p.status with
      | none => simp [projectClosed]
      | some ProjectStatus.OPEN => simp [projectClosed]
      | some ProjectStatus.IN_PROGRESS => simp [projectClosed]
      | some ProjectStatus.COMPLETED => exact absurd (Or.inl hst) hopen
      | some ProjectStatus.CANCELLED => exact absurd (Or.inr hst) hopen
    refine ⟨⟨newId, pid, body.volunteerName, body.volunteerEmail, body.message,
      AppStatus.PENDING, none, now, none⟩, ?_, ?_, rfl, rfl, ?_⟩ <;>
      simp [applicationsCreateRun, appErr, hpt, hfind, hcl]

/-- Witness for the application-create classification claim: applying to the
seeded OPEN project inserts one PENDING row and is answered 201, and
applying to the COMPLETED project is answered 409 PROJECT_NOT_OPEN. -/
theorem application_create_classification_witness :
    (∃ row : AppRow,
      (applicationsCreateRun openProjectRow.id validAppBody true db0
          newAppId 100 AFail.ok).resp.status = 201
      ∧ (applicationsCreateRun openProjectRow.id validAppBody true db0
          newAppId 100 AFail.ok).application = some row
      ∧ row.status = AppStatus.PENDING
      ∧ row.reviewedAt = none
      ∧ (applicationsCreateRun openProjectRow.id validAppBody true db0
          newAppId 100 AFail.ok).db.applications = db0.applications ++ [row])
    ∧ (applicationsCreateRun completedProjectRow.id validAppBody true db0
        newAppId 100 AFail.ok).resp = errResp 409 "PROJECT_NOT_OPEN" :=
  ⟨(application_create_classification openProjectRow.id validAppBody db0
      newAppId 100).2.2.2 openProjectRow rfl (by decide) (by decide),
   ((application_create_classification completedProjectRow.id validAppBody db0
      newAppId 100).2.2.1 completedProjectRow rfl (by decide)
      (Or.inl rfl)).1⟩

theorem decideApp_pendingIff (dec : Decision) (note : Option String) (now : Nat)
    (appId pid : String) (r : AppRow)
    (h : pendingIffUnreviewed r = true) :
    pendingIffUnreviewed (decideApp dec note now appId pid r) = true := by
  unfold decideApp
  split
  · cases dec <;> rfl
  · exact h

theorem all_map_decideApp (l : List AppRow) (dec : Decision)
    (note : Option String) (now : Nat) (appId pid : String)
    (h : l.all pendingIffUnreviewed = true) :
    (l.map (decideApp dec note now appId pid)).all pendingIffUnreviewed = true := by
  rw [List.all_map]
  refine List.all_eq_true.mpr ?_
  intro x hx
  exact decideApp_pendingIff dec note now appId pid x
    (List.all_eq_true.mp h x hx)

theorem mem_filter_decided (l : List AppRow) (dec : Decision)
    (note : Option String) (now : Nat) (appId pid : String) (r : AppRow)
    (hr : r ∈ (l.map (decideApp dec note now appId pid)).filter
        (fun r => r.id = appId ∧ r.projectId = pid)) :
    r.status = dec.toStatus ∧ r.reviewedAt = some now := by
  obtain ⟨hmem, hcond⟩ := List.mem_filter.mp hr
  obtain ⟨r0, _, heq⟩ := List.mem_map.mp hmem
  by_cases hm : r0.id = appId ∧ r0.projectId = pid
  · rw [← heq]
    unfold decideApp
    rw [if_pos hm]
    exact ⟨rfl, rfl⟩
  · exfalso
    have : decideApp dec note now appId pid r0 = r0 := by
      unfold decideApp; rw [if_neg hm]
    rw [this] at heq
    rw [← heq] at hcond
    exact hm (of_decide_eq_true hcond)

/-- C9: PENDING if and only if unreviewed, preserved by every operation:
creation inserts PENDING rows with a null reviewed timestamp, the decision
update is the only mutation and always sets APPROVED/REJECTED together with
the reviewed timestamp, matching jointly on application id and project id
and answering 404 when no row matches both. -/
theorem application_status_reviewed_invariant (db : DbState)
    (h : db.applications.all pendingIffUnreviewed = true) :
    (∀ pid body valid newId now env,
      ((applicationsCreateRun pid body valid db newId now
          env).db.applications.all pendingIffUnreviewed) = true)
    ∧ (∀ pid appId dec note valid now env,
      ((applicationsDecideRun pid appId dec note valid db now
          env).db.applications.all pendingIffUnreviewed) = true)
    ∧ (∀ pid appId dec note now, db.applicationsTablePresent = true →
      decideMatchCount db appId pid = 0 →
      (applicationsDecideRun pid appId dec note true db now DFail.ok).resp =
        errResp 404 "PROJECT_APPLICATION_NOT_FOUND")
    ∧ (∀ pid appId dec note now row,
      (applicationsDecideRun pid appId dec note true db now
          DFail.ok).application = some row →
      (row.status = AppStatus.APPROVED ∨ row.status = AppStatus.REJECTED)
        ∧ row.reviewedAt = some now) := by
  refine ⟨?_, ?_, ?_, ?_⟩
  · intro pid body valid newId now env
    cases valid with
    | false => simp [applicationsCreateRun, appErr, h]
    | true =>
      cases hf : findProject db pid with
      | none =>
        cases env <;> by_cases hpt : db.applicationsTablePresent <;>
          simp [applicationsCreateRun, appErr, hpt, hf, h]
      | some p =>
        cases env <;> by_cases hpt : db.applicationsTablePresent <;>
          by_cases hcl : projectClosed p.status <;>
          simp [applicationsCreateRun, appErr, hpt, hf, hcl, h,
                List.all_append, pendingIffUnreviewed]
  · intro pid appId dec note valid now env
    cases valid with
    | false => simp [applicationsDecideRun, appErr, h]
    | true =>
      cases env <;> by_cases hpt : db.applicationsTablePresent <;>
        by_cases hm : decideMatchCount db appId pid = 0 <;>
        simp [applicationsDecideRun, appErr, hpt, hm, h,
              all_map_decideApp db.applications dec note now appId pid h]
  · intro pid appId dec note now hpt hm
    simp [applicationsDecideRun, appErr, hpt, hm]
  · intro pid appId dec note now row happ
    by_cases hpt : db.applicationsTablePresent
    · by_cases hm : decideMatchCount db appId pid = 0
      · simp [applicationsDecideRun, appErr, hpt, hm] at happ
      · simp only [applicationsDecideRun, appErr, hpt, hm] at happ
        have hrmem : row ∈ (db.applications.map
            (decideApp dec note now appId pid)).filter
            (fun r => r.id = appId ∧ r.projectId = pid) := by
          rcases hfl : (db.applications.map
              (decideApp dec note now appId pid)).filter
              (fun r => r.id = appId ∧ r.projectId = pid) with _ | ⟨a, t⟩
          · rw [hfl] at happ
            simp at happ
          · rw [hfl] at happ
            simp at happ
            rw [hfl, happ]
            exact List.mem_cons_self row t
        have hfacts := mem_filter_decided db.applications dec note now appId
          pid row hrmem
        refine ⟨?_, hfacts.2⟩
        cases dec
        · exact Or.inl hfacts.1
        · exact Or.inr hfacts.1
    · simp [applicationsDecideRun, appErr, hpt] at happ

/-- Witness for the PENDING-iff-unreviewed claim: deciding the seeded
PENDING application APPROVED at time 120 keeps every row satisfying the
biconditional, and the returned row is APPROVED with reviewed timestamp
120. -/
theorem application_status_reviewed_invariant_witness :
    ((applicationsDecideRun openProjectRow.id newAppId Decision.APPROVED
        (some ("great fit")) true db1 120 DFail.ok).db.applications.all
        pendingIffUnreviewed) = true
    ∧ ((decidedAppRow.status = AppStatus.APPROVED
          ∨ decidedAppRow.status = AppStatus.REJECTED)
        ∧ decidedAppRow.reviewedAt = some 120) :=
  ⟨(application_status_reviewed_invariant db1 (by decide)).2.1
      openProjectRow.id newAppId Decision.APPROVED (some ("great fit")) true
      120 DFail.ok,
   (application_status_reviewed_invariant db1 (by decide)).2.2.2
      openProjectRow.id newAppId Decision.APPROVED (some ("great fit")) 120
      decidedAppRow (by decide)⟩

/-- Per-trace discipline of the contributions handler: serializable
transaction wrapping, single release, rollback before release on failure. -/
theorem contributionsRun_discipline (body : ContribBody) (env : ContribEnv) :
    txnWrapped (contributionsRun body env).2 = true
    ∧ releaseDiscipline (contributionsRun body env).2 = true
    ∧ rollbackDiscipline (contributionsRun body env).1
        (contributionsRun body env).2 = true := by
  obtain ⟨fp, code, tid⟩ := env
  cases hv : contributionValid body <;>
    cases fp <;>
    simp [contributionsRun, hv, txnWrapped, txnCheck, releaseDiscipline, releaseCount, wasAcquired, rollbackDiscipline, rollbackBeforeRelease, isRelease, isAcquire]

/-- Per-trace discipline of the volunteers handler. -/
theorem volunteersRun_discipline (valid : Bool) (env : VolunteerEnv) :
    txnWrapped (volunteersRun valid env).2 = true
    ∧ releaseDiscipline (volunteersRun valid env).2 = true
    ∧ rollbackDiscipline (volunteersRun valid env).1
        (volunteersRun valid env).2 = true := by
  obtain ⟨fp, code⟩ := env
  cases valid <;>
    cases fp <;>
    simp [volunteersRun, txnWrapped, txnCheck, releaseDiscipline, releaseCount, wasAcquired, rollbackDiscipline, rollbackBeforeRelease, isRelease, isAcquire]

/-- Per-trace discipline of the shared project-create body. -/
theorem projectCreateRun_discipline (data : ProjData) (valid : Bool)
    (cols : ColumnRows) (env : ProjEnv) :
    txnWrapped (projectCreateRun data valid cols env).2 = true
    ∧ releaseDiscipline (projectCreateRun data valid cols env).2 = true
    ∧ rollbackDiscipline (projectCreateRun data valid cols env).1
        (projectCreateRun data valid cols env).2 = true := by
  obtain ⟨fp, code, nid⟩ := env
  cases valid <;>
    cases fp <;>
    simp [projectCreateRun, txnWrapped, txnCheck, releaseDiscipline, releaseCount, wasAcquired, rollbackDiscipline, rollbackBeforeRelease, isRelease, isAcquire] <;>
    split_ifs <;>
    simp_all [txnWrapped, txnCheck, releaseDiscipline, releaseCount, wasAcquired, rollbackDiscipline, rollbackBeforeRelease, isRelease, isAcquire]

/-- Per-trace discipline of the application-create handler: it issues no
transaction-control statement at all, and releases exactly once when
acquired. -/
theorem applicationsCreateRun_discipline (pid : String) (body : AppCreateBody)
    (valid : Bool) (db : DbState) (newId : String) (now : Nat) (env : AFail) :
    autocommitOnly (applicationsCreateRun pid body valid db newId now env).evs
        = true
    ∧ releaseDiscipline
        (applicationsCreateRun pid body valid db newId now env).evs = true := by
  cases valid with
  | false =>
    simp [applicationsCreateRun, appErr, autocommitOnly, isTxnCtl,
      releaseDiscipline, releaseCount, wasAcquired, isRelease, isAcquire]
  | true =>
    cases hf : findProject db pid with
    | none =>
      cases env <;> by_cases hpt : db.applicationsTablePresent <;>
        simp [applicationsCreateRun, appErr, hpt, hf, autocommitOnly, isTxnCtl,
          releaseDiscipline, releaseCount, wasAcquired, isRelease, isAcquire]
    | some p =>
      cases env <;> by_cases hpt : db.applicationsTablePresent <;>
        by_cases hcl : projectClosed p.status <;>
        simp [applicationsCreateRun, appErr, hpt, hf, hcl, autocommitOnly,
          isTxnCtl, releaseDiscipline, releaseCount, wasAcquired, isRelease,
          isAcquire]

/-- Per-trace discipline of the application-decision handler. -/
theorem applicationsDecideRun_discipline (pid appId : String) (dec : Decision)
    (note : Option String) (valid : Bool) (db : DbState) (now : Nat)
    (env : DFail) :
    autocommitOnly
        (applicationsDecideRun pid appId dec note valid db now env).evs = true
    ∧ releaseDiscipline
        (applicationsDecideRun pid appId dec note valid db now env).evs
        = true := by
  cases valid <;>
    cases env <;> by_cases hpt : db.applicationsTablePresent <;>
      by_cases hm : decideMatchCount db appId pid = 0 <;>
      simp [applicationsDecideRun, appErr, hpt, hm, autocommitOnly, isTxnCtl,
        releaseDiscipline, releaseCount, wasAcquired, isRelease, isAcquire]

/-- Per-trace discipline of the application-list handler. -/
theorem applicationsListRun_discipline (pid : String) (valid : Bool)
    (db : DbState) (env : GFail) :
    releaseDiscipline (applicationsListRun pid valid db env).evs = true := by
  cases valid <;>
    cases hf : findProject db pid <;>
    cases env <;> by_cases hpt : db.applicationsTablePresent <;>
      simp [applicationsListRun, appErr, hpt, hf, releaseDiscipline,
        releaseCount, wasAcquired, isRelease, isAcquire]

/-- Per-trace discipline of the project-list handler, including the fresh
capability probe it issues on each acquired request. -/
theorem projectsListRun_discipline (valid : Bool) (env : LFail) :
    releaseDiscipline (projectsListRun valid env).2 = true
    ∧ probedOncePerAcquire (projectsListRun valid env).2 = true := by
  cases valid <;> cases env <;>
    simp [projectsListRun, releaseDiscipline, releaseCount, wasAcquired,
      isRelease, isAcquire, probedOncePerAcquire, probeCount, isProbeQuery]

/-- Per-trace discipline of the project-status handler, including its fresh
capability probe per acquired request. -/
theorem projectsStatusPatchRun_discipline (pid : String)
    (newStatus : ProjectStatus) (valid : Bool) (db : DbState) (env : SFail) :
    releaseDiscipline (projectsStatusPatchRun pid newStatus valid db env).2.2
        = true
    ∧ probedOncePerAcquire
        (projectsStatusPatchRun pid newStatus valid db env).2.2 = true := by
  cases valid <;> cases env <;>
    by_cases hs : (getProjectColumnCapabilities db.projectColumns).hasStatus <;>
    by_cases hm : (db.projects.filter (fun p => p.id = pid)).length = 0 <;>
    simp [projectsStatusPatchRun, hs, hm, releaseDiscipline, releaseCount,
      wasAcquired, isRelease, isAcquire, probedOncePerAcquire, probeCount,
      isProbeQuery]

/-- C1 counterexample: the application-create and application-decision
handlers perform their data statements with no BEGIN, no SET LOCAL
TRANSACTION ISOLATION LEVEL SERIALIZABLE and no COMMIT at all, on their
ordinary success paths, so their statements are not wrapped in a single
serializable transaction as claimed. -/
theorem application_writes_not_in_transaction :
    (applicationsCreateRun openProjectRow.id validAppBody true db0 newAppId
        100 AFail.ok).resp.status = 201
    ∧ dataStmtCount (applicationsCreateRun openProjectRow.id validAppBody true
        db0 newAppId 100 AFail.ok).evs = 4
    ∧ txnWrapped (applicationsCreateRun openProjectRow.id validAppBody true
        db0 newAppId 100 AFail.ok).evs = false
    ∧ (applicationsDecideRun openProjectRow.id newAppId Decision.APPROVED
        none true db1 120 DFail.ok).resp.status = 200
    ∧ dataStmtCount (applicationsDecideRun openProjectRow.id newAppId
        Decision.APPROVED none true db1 120 DFail.ok).evs = 2
    ∧ txnWrapped (applicationsDecideRun openProjectRow.id newAppId
        Decision.APPROVED none true db1 120 DFail.ok).evs = false := by
  decide

/-- C1 amended: the contribution, volunteer-upsert and project-create
requests issue all their statements inside a single serializable transaction
(BEGIN then SET LOCAL before the first data statement, closed by COMMIT or
ROLLBACK), while the application-create and application-decision requests
issue their statements in autocommit mode with no transaction-control
statement. -/
theorem write_path_transaction_discipline :
    (∀ body env, txnWrapped (contributionsRun body env).2 = true)
    ∧ (∀ valid env, txnWrapped (volunteersRun valid env).2 = true)
    ∧ (∀ data valid cols env,
        txnWrapped (projectCreateRun data valid cols env).2 = true)
    ∧ (∀ data valid cols env,
        txnWrapped (projectPublicCreateRun data valid cols env).2 = true)
    ∧ (∀ pid body valid db newId now env,
        autocommitOnly
          (applicationsCreateRun pid body valid db newId now env).evs = true)
    ∧ (∀ pid appId dec note valid db now env,
        autocommitOnly
          (applicationsDecideRun pid appId dec note valid db now env).evs
          = true) :=
  ⟨fun body env => (contributionsRun_discipline body env).1,
   fun valid env => (volunteersRun_discipline valid env).1,
   fun data valid cols env => (projectCreateRun_discipline data valid cols env).1,
   fun data valid cols env =>
     (projectCreateRun_discipline { data with status := ProjectStatus.OPEN }
       valid cols env).1,
   fun pid body valid db newId now env =>
     (applicationsCreateRun_discipline pid body valid db newId now env).1,
   fun pid appId dec note valid db now env =>
     (applicationsDecideRun_discipline pid appId dec note valid db now env).1⟩

/-- C2 counterexample: on the application-create handler, an INSERT failure
after acquisition is a failure path on which no ROLLBACK is ever issued
before the release (the handler holds no open transaction), contradicting
the claim that every core endpoint rolls back on every failure path after
acquisition. -/
theorem application_create_failure_without_rollback :
    (applicationsCreateRun openProjectRow.id validAppBody true db0 newAppId
        100 AFail.atInsert).resp.status = 500
    ∧ wasAcquired (applicationsCreateRun openProjectRow.id validAppBody true
        db0 newAppId 100 AFail.atInsert).evs = true
    ∧ releaseCount (applicationsCreateRun openProjectRow.id validAppBody true
        db0 newAppId 100 AFail.atInsert).evs = 1
    ∧ rollbackBeforeRelease (applicationsCreateRun openProjectRow.id
        validAppBody true db0 newAppId 100 AFail.atInsert).evs = false := by
  decide

/-- C2 amended: every modelled core endpoint releases the connection exactly
once when it acquired one and never when acquisition failed; the ROLLBACK
before release on failure paths holds for the four endpoints that open a
transaction (contributions, volunteer upsert, the two project creates),
while the autocommit endpoints (project list, project status update,
application create/list/decide) release without a ROLLBACK. -/
theorem connection_release_discipline :
    (∀ body env, releaseDiscipline (contributionsRun body env).2 = true
      ∧ rollbackDiscipline (contributionsRun body env).1
          (contributionsRun body env).2 = true)
    ∧ (∀ valid env, releaseDiscipline (volunteersRun valid env).2 = true
      ∧ rollbackDiscipline (volunteersRun valid env).1
          (volunteersRun valid env).2 = true)
    ∧ (∀ data valid cols env,
        releaseDiscipline (projectCreateRun data valid cols env).2 = true
      ∧ rollbackDiscipline (projectCreateRun data valid cols env).1
          (projectCreateRun data valid cols env).2 = true)
    ∧ (∀ data valid cols env,
        releaseDiscipline (projectPublicCreateRun data valid cols env).2 = true
      ∧ rollbackDiscipline (projectPublicCreateRun data valid cols env).1
          (projectPublicCreateRun data valid cols env).2 = true)
    ∧ (∀ valid env, releaseDiscipline (projectsListRun valid env).2 = true)
    ∧ (∀ pid ns valid db env,
        releaseDiscipline (projectsStatusPatchRun pid ns valid db env).2.2
          = true)
    ∧ (∀ pid body valid db newId now env,
        releaseDiscipline
          (applicationsCreateRun pid body valid db newId now env).evs = true)
    ∧ (∀ pid valid db env,
        releaseDiscipline (applicationsListRun pid valid db env).evs = true)
    ∧ (∀ pid appId dec note valid db now env,
        releaseDiscipline
          (applicationsDecideRun pid appId dec note valid db now env).evs
          = true) :=
  ⟨fun body env => ⟨(contributionsRun_discipline body env).2.1,
      (contributionsRun_discipline body env).2.2⟩,
   fun valid env => ⟨(volunteersRun_discipline valid env).2.1,
      (volunteersRun_discipline valid env).2.2⟩,
   fun data valid cols env =>
     ⟨(projectCreateRun_discipline data valid cols env).2.1,
      (projectCreateRun_discipline data valid cols env).2.2⟩,
   fun data valid cols env =>
     ⟨(projectCreateRun_discipline { data with status := ProjectStatus.OPEN }
         valid cols env).2.1,
      (projectCreateRun_discipline { data with status := ProjectStatus.OPEN }
         valid cols env).2.2⟩,
   fun valid env => (projectsListRun_discipline valid env).1,
   fun pid ns valid db env =>
     (projectsStatusPatchRun_discipline pid ns valid db env).1,
   fun pid body valid db newId now env =>
     (applicationsCreateRun_discipline pid body valid db newId now env).2,
   fun pid valid db env => applicationsListRun_discipline pid valid db env,
   fun pid appId dec note valid db now env =>
     (applicationsDecideRun_discipline pid appId dec note valid db now env).2⟩

/-- C8 counterexample: the capability probe is not memoized.  A second
project-list request in the same process issues its own
information_schema query: the combined trace of two requests carries two
probe queries, not one. -/
theorem capability_probe_not_memoized :
    probeCount (projectsListRun true LFail.ok).2 = 1
    ∧ probeCount ((projectsListRun true LFail.ok).2
        ++ (projectsListRun true LFail.ok).2) = 2 := by
  decide

/-- C8 amended: the probe result is recomputed per request: each acquired
project-list or project-status request issues exactly one fresh
information_schema capability query, and the probes of consecutive requests
accumulate (no process-lifetime cache exists). -/
theorem capability_probe_per_request :
    (∀ valid env, probedOncePerAcquire (projectsListRun valid env).2 = true)
    ∧ (∀ pid ns valid db env,
        probedOncePerAcquire
          (projectsStatusPatchRun pid ns valid db env).2.2 = true)
    ∧ (∀ valid1 env1 valid2 env2,
        probeCount ((projectsListRun valid1 env1).2
            ++ (projectsListRun valid2 env2).2)
          = probeCount (projectsListRun valid1 env1).2
            + probeCount (projectsListRun valid2 env2).2) := by
  refine ⟨fun valid env => (projectsListRun_discipline valid env).2,
    fun pid ns valid db env =>
      (projectsStatusPatchRun_discipline pid ns valid db env).2,
    fun valid1 env1 valid2 env2 => ?_⟩
  simp [probeCount, List.filter_append]
